import Mathlib

/-!
Shallow embedding of `src/scrape.py` (ansible-scrape): a single-page web
scraper that fetches a URL via Ansible's `fetch_url` and extracts text at
an XPath via lxml.  The embedding models the module's own code exactly;
the behavior of the external libraries (`AnsibleModule`, `fetch_url`,
`lxml.html.fromstring`, `doc.xpath`, `HtmlElement.text_content`) is
modelled from their documented semantics where the module depends on it.
-/

namespace Scrape

/-- An lxml `HtmlElement`, as seen by `text_content()`: an element carries
its leading text (`.text`) and a list of children, each child paired with
the text that follows it (`.tail`).  This mirrors lxml's text/tail
representation of the HTML tree. -/
inductive HtmlElem where
  | mk (text : String) (children : List (HtmlElem × String))
deriving Repr

mutual

/-- `HtmlElement.text_content()`: the concatenation of all text in the
subtree in document order — the element's own `.text`, then for each child
in order its `text_content` followed by its `.tail`. -/
def textContent : HtmlElem → String
  | .mk t cs => t ++ textContentList cs

def textContentList : List (HtmlElem × String) → String
  | [] => ""
  | (c, tl) :: rest => textContent c ++ tl ++ textContentList rest

end

mutual

/-- The list of text fragments of the subtree, in document order.  Used to
state that `textContent` is the concatenation of all descendant text in
document order. -/
def textFragments : HtmlElem → List String
  | .mk t cs => t :: textFragmentsList cs

def textFragmentsList : List (HtmlElem × String) → List String
  | [] => []
  | (c, tl) :: rest => textFragments c ++ (tl :: textFragmentsList rest)

end

/-- The domain of Python values that `PageScraper._get_element_text` can
receive and return: `None`, an lxml `HtmlElement`, a string (an attribute
value, a text node, or a scalar XPath result), or a list of such values
(an XPath node-set result). -/
inductive PyVal where
  | pynone
  | element (e : HtmlElem)
  | pystr (s : String)
  | pylist (xs : List PyVal)
deriving Repr

mutual

/-- `PageScraper._get_element_text(element)`, line for line:
an `HtmlElement` yields its `text_content()`; an empty list yields `None`
("an empty list means we didn't match anything"); a non-empty list yields
the list of recursive results; anything else is returned unchanged. -/
def getElementText : PyVal → PyVal
  | .element e => .pystr (textContent e)
  | .pylist xs => if xs.isEmpty then .pynone else .pylist (getElementTextList xs)
  | .pynone => .pynone
  | .pystr s => .pystr s

def getElementTextList : List PyVal → List PyVal
  | [] => []
  | x :: xs => getElementText x :: getElementTextList xs

end

/-- Python `content is not None`. -/
def isNotNone : PyVal → Bool
  | .pynone => false
  | _ => true

/-- The `info` dict returned by Ansible's `fetch_url`: an HTTP status code
(`-1` denotes a transport-level failure) and a message. -/
structure FetchInfo where
  status : Int
  msg : String
deriving Repr

/-- One run's environment: everything the outside world supplies to the
module.  `info` and `elapsed` describe the fetch outcome; `body` is the
response body a `GET` would read; `xpathValid` says whether the XPath
expression is syntactically valid (lxml raises `XPathEvalError` otherwise,
independent of the document); `xpathResult` is the value `doc.xpath(...)`
returns when the expression is valid. -/
structure ScrapeEnv where
  info : FetchInfo
  body : String
  elapsed : Nat
  xpathValid : Bool
  xpathResult : PyVal

/-- Every way a run of the module can terminate: `exit_json` on 304,
`fail_json` on transport failure, `fail_json` on a non-200 status, an
uncaught lxml parser exception, an uncaught lxml XPath-evaluation
exception, or `exit_json(**result)` with the assembled result record.
The fields of each constructor are exactly the keyword arguments the
code passes at the corresponding call site (the result record carries
no elapsed time). -/
inductive ModuleOutcome where
  | exitNotModified (url : String) (changed : Bool) (msg : String) (elapsed : Nat)
  | failNetwork (url msg : String) (elapsed : Nat)
  | failHttp (url msg response : String) (statusCode : Int) (elapsed : Nat)
  | parseError
  | xpathError (xpath : String)
  | exitResult (matched : Bool) (content : PyVal) (changed : Bool)
deriving Repr

/-- The HTTP method `_get_content` selects: `HEAD` in check mode, else
`GET`. -/
def requestMethod (checkMode : Bool) : String :=
  if checkMode then "HEAD" else "GET"

/-- `PageScraper._get_content`: classify the fetch.  Status 304 →
`exit_json(changed=False, …)`; status -1 → `fail_json(msg, elapsed)`;
status ≠ 200 → `fail_json(msg="Request failed", status_code, elapsed)`;
otherwise return `resp.read()`.  A `HEAD` request (check mode) reads an
empty body. -/
def getContent (checkMode : Bool) (url : String) (env : ScrapeEnv) :
    Except ModuleOutcome String :=
  if env.info.status = 304 then
    .error (.exitNotModified url false env.info.msg env.elapsed)
  else if env.info.status = -1 then
    .error (.failNetwork url env.info.msg env.elapsed)
  else if env.info.status ≠ 200 then
    .error (.failHttp url "Request failed" env.info.msg env.info.status env.elapsed)
  else
    .ok (if requestMethod checkMode = "HEAD" then "" else env.body)

/-- `lxml.html.fromstring`: lenient HTML parsing, but an empty document
raises `ParserError("Document is empty")`.  Modelled as failing exactly
on the empty string; any non-empty body parses (leniently) and XPath
evaluation on the resulting tree is described by the environment's
oracle. -/
def fromstringFails (body : String) : Bool :=
  body.isEmpty

/-- `doc.xpath(self.xpath)`: raises `XPathEvalError` when the expression
is syntactically invalid, else returns the match result. -/
def evalXpath (env : ScrapeEnv) (xpath : String) : Except ModuleOutcome PyVal :=
  if env.xpathValid then .ok env.xpathResult else .error (.xpathError xpath)

/-- `PageScraper.scrape` followed by `main`'s result assembly:
fetch the content, parse it, evaluate the XPath, normalize with
`_get_element_text`, and build `{'matched': content is not None,
'content': content}`; `main` sets `changed = True` when `matched` is true
(Ansible's `exit_json` defaults `changed` to `False` otherwise). -/
def runScrape (checkMode : Bool) (url xpath : String) (env : ScrapeEnv) :
    ModuleOutcome :=
  match getContent checkMode url env with
  | .error o => o
  | .ok body =>
    if fromstringFails body then .parseError
    else
      match evalXpath env xpath with
      | .error o => o
      | .ok elem =>
        let content := getElementText elem
        .exitResult (isNotNone content) content (isNotNone content)

/-- The elapsed-seconds value carried in a module outcome, when the
outcome carries one. -/
def elapsedOf : ModuleOutcome → Option Nat
  | .exitNotModified _ _ _ e => some e
  | .failNetwork _ _ e => some e
  | .failHttp _ _ _ _ e => some e
  | .parseError => none
  | .xpathError _ => none
  | .exitResult _ _ _ => none

/-- Whether an outcome shows the XPath-extraction step ran: either the
XPath evaluation raised, or a result record was assembled from its
result. -/
def reachesExtraction : ModuleOutcome → Bool
  | .xpathError _ => true
  | .exitResult _ _ _ => true
  | _ => false

/-- `AnsibleModule` parameter handling for the declared optional `timeout`
(no default in the argument spec): the key is always present in
`module.params`, holding `None` when the caller omits it.  The outer
`Option` is key presence in the dict; the inner value is the Python value
(possibly `None`). -/
def ansibleParamsTimeout (supplied : Option Int) : Option (Option Int) :=
  some supplied

/-- Python `dict.get(key, default)`: the stored value when the key is
present (even if that value is `None`), the default otherwise. -/
def dictGet (entry : Option (Option Int)) (default : Option Int) : Option Int :=
  match entry with
  | Option.none => default
  | some v => v

/-- `self.module.params.get('timeout', 10)` in `PageScraper.__init__`:
the timeout the scraper actually uses, as a function of what the caller
supplied. -/
def scraperTimeout (supplied : Option Int) : Option Int :=
  dictGet (ansibleParamsTimeout supplied) (some 10)

/-- Concatenation of a list of strings, in order, with no separator. -/
def concatAll : List String → String
  | [] => ""
  | s :: rest => s ++ concatAll rest

/-! Helper lemmas about the embedded definitions. -/

theorem concatAll_append (a b : List String) :
    concatAll (a ++ b) = concatAll a ++ concatAll b := by
  induction a with
  | nil => simp [concatAll]
  | cons s rest ih =>
      simp [concatAll, ih, String.append_assoc]

theorem isNotNone_iff (v : PyVal) : isNotNone v = true ↔ v ≠ PyVal.pynone := by
  cases v <;> simp [isNotNone]

theorem getElementTextList_eq_map :
    ∀ xs : List PyVal, getElementTextList xs = xs.map getElementText
  | [] => rfl
  | x :: xs => by
      rw [getElementTextList, List.map_cons, getElementTextList_eq_map xs]

mutual

theorem textContent_eq_concat :
    ∀ e : HtmlElem, textContent e = concatAll (textFragments e)
  | .mk t cs => by
      rw [textContent, textFragments, concatAll, textContentList_eq_concat cs]

theorem textContentList_eq_concat :
    ∀ cs : List (HtmlElem × String),
      textContentList cs = concatAll (textFragmentsList cs)
  | [] => rfl
  | (c, tl) :: rest => by
      rw [textContentList, textFragmentsList, textContent_eq_concat c,
        textContentList_eq_concat rest, concatAll_append]
      simp [concatAll, String.append_assoc]

end

theorem getContent_304 (ck : Bool) (u : String) (env : ScrapeEnv)
    (h : env.info.status = 304) :
    getContent ck u env =
      .error (.exitNotModified u false env.info.msg env.elapsed) := by
  simp [getContent, h]

theorem getContent_neg1 (ck : Bool) (u : String) (env : ScrapeEnv)
    (h : env.info.status = -1) :
    getContent ck u env = .error (.failNetwork u env.info.msg env.elapsed) := by
  simp [getContent, h]

theorem getContent_other (ck : Bool) (u : String) (env : ScrapeEnv)
    (h304 : env.info.status ≠ 304) (h1 : env.info.status ≠ -1)
    (h200 : env.info.status ≠ 200) :
    getContent ck u env =
      .error (.failHttp u "Request failed" env.info.msg env.info.status
        env.elapsed) := by
  simp [getContent, h304, h1, h200]

theorem getContent_200 (ck : Bool) (u : String) (env : ScrapeEnv)
    (h : env.info.status = 200) :
    getContent ck u env = .ok (if ck then "" else env.body) := by
  cases ck <;> simp [getContent, requestMethod, h]

/-! Concrete environments used as witnesses. -/

/-- A 200 fetch with a body, a valid expression, one attribute match. -/
def envC1 : ScrapeEnv :=
  ⟨⟨200, "OK"⟩, "<html><a>hi</a></html>", 2, true, .pylist [.pystr "/v1.2.3"]⟩

/-- A 201 fetch: a 2xx status that is not 200. -/
def envC2 : ScrapeEnv :=
  ⟨⟨201, "Created"⟩, "<p>x</p>", 1, true, .pylist [.pystr "y"]⟩

/-- A 200 fetch whose expression selects zero nodes. -/
def envC3 : ScrapeEnv :=
  ⟨⟨200, "OK"⟩, "<html></html>", 0, true, .pylist []⟩

/-- A 304 fetch. -/
def env304 : ScrapeEnv :=
  ⟨⟨304, "Not Modified"⟩, "", 3, false, .pynone⟩

/-- A 200 fetch with a scalar string match. -/
def envC7 : ScrapeEnv :=
  ⟨⟨200, "OK"⟩, "<a>hi</a>", 5, true, .pystr "hi"⟩

/-- A 200 fetch with a syntactically invalid expression. -/
def envC8 : ScrapeEnv :=
  ⟨⟨200, "OK"⟩, "<p>x</p>", 1, false, .pynone⟩

/-- A 200 fetch whose GET body is empty. -/
def envC10 : ScrapeEnv :=
  ⟨⟨200, "OK"⟩, "", 1, true, .pylist []⟩

/-- A small element tree: text "a", then a child with text "b" and tail
"c", then a child with text "d" and tail "e". -/
def elemC9 : HtmlElem :=
  HtmlElem.mk "a" [(HtmlElem.mk "b" [], "c"), (HtmlElem.mk "d" [], "e")]

/-! The claims. -/

/-- C1: for every result record produced by a successful run of `scrape`,
the field `matched` is true if and only if the field `content` is not
`None`. -/
theorem scrape_matched_iff_content_not_none
    (ck : Bool) (u x : String) (env : ScrapeEnv) (m : Bool) (c : PyVal)
    (ch : Bool) (h : runScrape ck u x env = .exitResult m c ch) :
    m = true ↔ c ≠ PyVal.pynone := by
  by_cases h304 : env.info.status = 304
  · unfold runScrape at h
    rw [getContent_304 ck u env h304] at h
    simp at h
  by_cases h1 : env.info.status = -1
  · unfold runScrape at h
    rw [getContent_neg1 ck u env h1] at h
    simp at h
  by_cases h200 : env.info.status = 200
  · unfold runScrape at h
    rw [getContent_200 ck u env h200] at h
    by_cases hb : fromstringFails (if ck then "" else env.body) = true
    · simp [hb] at h
    · cases hv : env.xpathValid
      · simp [hb, evalXpath, hv] at h
      · simp [hb, evalXpath, hv] at h
        obtain ⟨hm, hc, -⟩ := h
        subst hm
        subst hc
        exact isNotNone_iff _
  · unfold runScrape at h
    rw [getContent_other ck u env h304 h1 h200] at h
    simp at h

/-- Witness for C1: a concrete successful run whose result record has
`matched = true` and a non-`None` content. -/
theorem scrape_matched_iff_content_not_none_witness :
    (true = true ↔ PyVal.pylist [PyVal.pystr "/v1.2.3"] ≠ PyVal.pynone) :=
  scrape_matched_iff_content_not_none false "u" "//a" envC1 true
    (PyVal.pylist [PyVal.pystr "/v1.2.3"]) true rfl

/-- C2 counterexample: status 201 lies inside the 200–299 range, yet the
run does not produce a success with extraction — it terminates with the
HTTP-error failure carrying status code 201. -/
theorem http_2xx_not_success_counterexample :
    (200 : Int) ≤ 201 ∧ (201 : Int) ≤ 299 ∧
      runScrape false "u" "//p" envC2 =
        .failHttp "u" "Request failed" "Created" 201 1 :=
  ⟨by norm_num, by norm_num, rfl⟩

/-- C2 (amended): every status other than 200 — excluding 304 and the
transport-failure sentinel -1 — produces the HTTP-error failure carrying
that status code, and the run terminates without extraction; only status
exactly 200 returns the response body so extraction proceeds. -/
theorem http_status_classification
    (ck : Bool) (u x : String) (env : ScrapeEnv)
    (h304 : env.info.status ≠ 304) (h1 : env.info.status ≠ -1) :
    (env.info.status ≠ 200 →
      runScrape ck u x env =
        .failHttp u "Request failed" env.info.msg env.info.status
          env.elapsed ∧
      reachesExtraction (runScrape ck u x env) = false) ∧
    (env.info.status = 200 →
      getContent ck u env = .ok (if ck then "" else env.body)) := by
  constructor
  · intro h200
    have hg := getContent_other ck u env h304 h1 h200
    constructor
    · unfold runScrape
      rw [hg]
    · unfold runScrape
      rw [hg]
      rfl
  · intro h200
    exact getContent_200 ck u env h200

/-- Witness for the amended C2, at status 201 and at status 200. -/
theorem http_status_classification_witness :
    runScrape false "u" "//p" envC2 =
      .failHttp "u" "Request failed" "Created" 201 1 ∧
    getContent false "u" envC1 = .ok "<html><a>hi</a></html>" :=
  ⟨((http_status_classification false "u" "//p" envC2 (by decide)
      (by decide)).1 (by decide)).1,
   (http_status_classification false "u" "//p" envC1 (by decide)
      (by decide)).2 rfl⟩

/-- C3: a path expression selecting zero nodes (the XPath evaluation
returns the empty list) normalizes to `None`: the run reports
`matched = false` with content `None`, never an empty sequence. -/
theorem empty_match_normalizes_to_none (u x : String) (env : ScrapeEnv)
    (h200 : env.info.status = 200) (hb : env.body.isEmpty = false)
    (hv : env.xpathValid = true) (hr : env.xpathResult = .pylist []) :
    runScrape false u x env = .exitResult false PyVal.pynone false := by
  unfold runScrape
  rw [getContent_200 false u env h200]
  simp [fromstringFails, hb, evalXpath, hv, hr, getElementText, isNotNone]

/-- Witness for C3. -/
theorem empty_match_normalizes_to_none_witness :
    runScrape false "u" "//nope" envC3 =
      .exitResult false PyVal.pynone false :=
  empty_match_normalizes_to_none "u" "//nope" envC3 rfl rfl rfl rfl

/-- C4: a 304 fetch exits the run successfully with `changed = false`,
the fetch message and elapsed time, and no content; the extractor is
never invoked (the outcome is the same for every body and every XPath
oracle). -/
theorem status_304_not_modified (ck : Bool) (u x : String) (env : ScrapeEnv)
    (h : env.info.status = 304) :
    runScrape ck u x env =
      .exitNotModified u false env.info.msg env.elapsed ∧
    reachesExtraction (runScrape ck u x env) = false := by
  have hg := getContent_304 ck u env h
  constructor
  · unfold runScrape
    rw [hg]
  · unfold runScrape
    rw [hg]
    rfl

/-- Witness for C4, in check mode with an invalid XPath oracle: the 304
exit happens regardless. -/
theorem status_304_not_modified_witness :
    runScrape true "u" "//a" env304 =
      .exitNotModified "u" false "Not Modified" 3 ∧
    reachesExtraction (runScrape true "u" "//a" env304) = false :=
  status_304_not_modified true "u" "//a" env304 rfl

/-- C5: in check mode the request method is `HEAD`, and the XPath
extraction step never runs — no run in check mode reaches the XPath
evaluation or assembles a result record. -/
theorem check_mode_head_no_extraction (u x : String) (env : ScrapeEnv) :
    requestMethod true = "HEAD" ∧
    reachesExtraction (runScrape true u x env) = false := by
  refine ⟨rfl, ?_⟩
  by_cases h304 : env.info.status = 304
  · unfold runScrape
    rw [getContent_304 true u env h304]
    rfl
  by_cases h1 : env.info.status = -1
  · unfold runScrape
    rw [getContent_neg1 true u env h1]
    rfl
  by_cases h200 : env.info.status = 200
  · unfold runScrape
    rw [getContent_200 true u env h200]
    rfl
  · unfold runScrape
    rw [getContent_other true u env h304 h1 h200]
    rfl

/-- C6 (code bug): when the caller omits `timeout`, the scraper's timeout
is `None`, not the documented default 10 — `AnsibleModule` materializes
the declared optional parameter as `None` in `params`, so the fallback in
`params.get(..., 10)` is dead. -/
theorem omitted_timeout_is_none :
    scraperTimeout Option.none = Option.none ∧
    scraperTimeout Option.none ≠ some 10 :=
  ⟨rfl, by simp [scraperTimeout, dictGet, ansibleParamsTimeout]⟩

/-- C7 counterexample: a concrete successful run whose result record
carries no elapsed time, though the fetch measured one (5 seconds). -/
theorem success_result_lacks_elapsed_counterexample :
    runScrape false "u" "//a" envC7 =
      .exitResult true (PyVal.pystr "hi") true ∧
    elapsedOf (runScrape false "u" "//a" envC7) = Option.none :=
  ⟨rfl, rfl⟩

/-- C7 (amended): the elapsed seconds are carried into the not-modified,
network-failure and HTTP-error outcomes, but the result record of a
successful run does not carry them. -/
theorem elapsed_carried_except_success
    (ck : Bool) (u x : String) (env : ScrapeEnv) :
    (env.info.status ≠ 200 →
      elapsedOf (runScrape ck u x env) = some env.elapsed) ∧
    (∀ m c ch, runScrape ck u x env = .exitResult m c ch →
      elapsedOf (runScrape ck u x env) = Option.none) := by
  constructor
  · intro h200
    by_cases h304 : env.info.status = 304
    · unfold runScrape
      rw [getContent_304 ck u env h304]
      rfl
    by_cases h1 : env.info.status = -1
    · unfold runScrape
      rw [getContent_neg1 ck u env h1]
      rfl
    · unfold runScrape
      rw [getContent_other ck u env h304 h1 h200]
      rfl
  · intro m c ch h
    rw [h]
    rfl

/-- Witness for the amended C7, at a 304 fetch and at a successful run. -/
theorem elapsed_carried_except_success_witness :
    elapsedOf (runScrape false "u" "//a" env304) = some 3 ∧
    elapsedOf (runScrape false "u" "//a" envC7) = Option.none :=
  ⟨(elapsed_carried_except_success false "u" "//a" env304).1 (by decide),
   (elapsed_carried_except_success false "u" "//a" envC7).2 true
     (PyVal.pystr "hi") true rfl⟩

/-- C8: a syntactically invalid path expression makes the XPath
evaluation raise; the exception propagates uncaught as the run's outcome,
and that outcome is distinct from every no-match result record. -/
theorem invalid_xpath_fails (u x : String) (env : ScrapeEnv)
    (h200 : env.info.status = 200) (hb : env.body.isEmpty = false)
    (hx : env.xpathValid = false) :
    runScrape false u x env = .xpathError x ∧
    ∀ m c ch, (ModuleOutcome.xpathError x) ≠ .exitResult m c ch := by
  constructor
  · unfold runScrape
    rw [getContent_200 false u env h200]
    simp [fromstringFails, hb, evalXpath, hx]
  · intro m c ch h
    exact ModuleOutcome.noConfusion h

/-- Witness for C8. -/
theorem invalid_xpath_fails_witness :
    runScrape false "u" "//bad[" envC8 = .xpathError "//bad[" :=
  (invalid_xpath_fails "u" "//bad[" envC8 rfl rfl rfl).1

/-- C9: normalization sends a single matched node to one string — the
concatenation of all its descendant text fragments in document order —
never to a one-element sequence; and it sends a list of matched nodes to
the elementwise normalization, preserving the order of the list. -/
theorem normalization_text_and_order (e : HtmlElem) (xs : List PyVal)
    (hxs : xs ≠ []) :
    getElementText (.element e) = .pystr (concatAll (textFragments e)) ∧
    (∀ ys, getElementText (.element e) ≠ .pylist ys) ∧
    getElementText (.pylist xs) = .pylist (xs.map getElementText) := by
  refine ⟨?_, ?_, ?_⟩
  · rw [getElementText, textContent_eq_concat]
  · intro ys h
    exact PyVal.noConfusion h
  · cases xs with
    | nil => exact absurd rfl hxs
    | cons a l =>
        rw [getElementText]
        simp [getElementTextList_eq_map]

/-- Witness for C9 on a three-fragment tree and a two-element list. -/
theorem normalization_text_and_order_witness :
    getElementText (.element elemC9) = .pystr "abcde" ∧
    getElementText (.pylist [PyVal.pystr "x", PyVal.pystr "y"]) =
      .pylist [PyVal.pystr "x", PyVal.pystr "y"] :=
  ⟨(normalization_text_and_order elemC9 [PyVal.pystr "x"]
      (by simp)).1,
   (normalization_text_and_order elemC9 [PyVal.pystr "x", PyVal.pystr "y"]
      (by simp)).2.2⟩

/-- C10: with an empty fetched body (the HEAD response in check mode, or
an empty 200 GET body) the parse raises, so the run aborts with the
parser error — producing neither a result record nor a no-match
success. -/
theorem empty_body_parse_aborts (ck : Bool) (u x : String) (env : ScrapeEnv)
    (h200 : env.info.status = 200) (hbody : ck = true ∨ env.body = "") :
    runScrape ck u x env = .parseError := by
  unfold runScrape
  rw [getContent_200 ck u env h200]
  rcases hbody with h | h
  · subst h
    rfl
  · rw [h]
    cases ck <;> rfl

/-- Witness for C10: check mode against a 200 response. -/
theorem empty_body_parse_aborts_witness :
    runScrape true "u" "//a" envC10 = ModuleOutcome.parseError :=
  empty_body_parse_aborts true "u" "//a" envC10 rfl (Or.inl rfl)

end Scrape
